import Mathlib

/-!
Shallow embedding of `src/musicbot/entry.py` (the media-entry download
manager): playlist entries, their download lifecycle, the readiness-future
registry, the cache probing logic and the persistence codec.

Modelling conventions:
* Python strings are `String`; `None`-able values are `Option`.
* `asyncio.Future` objects handed to callers are modelled as explicit
  `Future` values; the per-entry registry `_waiting_futures` is a
  `List Future`.  Resolving a future that is already resolved raises
  `InvalidStateError` in Python; the callback type `Future → Except Unit
  Future` models that.
* The filesystem and network are an explicit environment record: the
  download-directory listing, a size oracle, the `CONTENT-LENGTH` probe
  result (`none` models any failure of `get_header`/`int`), the extractor
  call result and the hashed-file existence test.  `os.makedirs`,
  `os.unlink` and `os.rename` are treated as infallible; the two
  `os.listdir` calls inside one routine run are assumed to agree.
* `utils.md5sum(path, 8)` lives outside `src/`; it is modelled from the
  spec as an environment-supplied 8-character content-hash fragment.
-/

namespace MusicBot

/-- Python `s.split(sep)[0]`: the part of `s` before the first occurrence of
`sep` (all of `s` when `sep` is absent). -/
def firstField (sep : Char) (s : String) : String :=
  String.mk (s.data.takeWhile (fun c => c ≠ sep))

/-- Split a character list at the last occurrence of `sep`;
`none` when `sep` does not occur. -/
def splitLast (sep : Char) : List Char → Option (List Char × List Char)
  | [] => none
  | c :: rest =>
    match splitLast sep rest with
    | some (a, b) => some (c :: a, b)
    | none => if c = sep then some ([], rest) else none

/-- Python `s.rsplit(sep, 1)`: `(before, some after)` split at the last
occurrence of `sep`, or `(s, none)` when `sep` is absent (in which case
Python returns the one-element list `[s]`). -/
def rsplit1 (sep : Char) (s : String) : String × Option String :=
  match splitLast sep s.data with
  | some (a, b) => (String.mk a, some (String.mk b))
  | none => (s, none)

/-- Model of `os.path.basename` with `/` as the separator. -/
def basename (s : String) : String :=
  match rsplit1 '/' s with
  | (_, some b) => b
  | (b, none) => b

/-- Model of `os.path.join` for the flat download directory. -/
def pjoin (d f : String) : String := d ++ "/" ++ f

/-- The errors the download routines can raise.  `extraction` and
`extractionNull` are the two ways an `ExtractionError` arises in
`_really_download`; `valueErr` models the tuple-unpacking `ValueError` in
the generic branch when the expected basename has no extension; `typeErr`
models subscripting a `None` extractor result in `StreamPlaylistEntry`. -/
inductive PyError where
  | extraction (msg : String)
  | extractionNull
  | valueErr
  | typeErr
  deriving DecidableEq, Repr

/-- The resolution state of an `asyncio.Future`. `result` means the future
was resolved with the entry itself (the only success value ever set). -/
inductive FutureState where
  | pending
  | result
  | failed (e : PyError)
  deriving DecidableEq, Repr

/-- A readiness handle handed to a caller by `get_ready_future`. -/
structure Future where
  cancelled : Bool
  state : FutureState
  deriving DecidableEq, Repr

/-- Model of `future.set_result(self)`: raises `InvalidStateError` (modelled as
`Except.error`) when the future is already resolved. -/
def setResult (f : Future) : Except Unit Future :=
  match f.state with
  | .pending => .ok { f with state := .result }
  | _ => .error ()

/-- Model of `future.set_exception(e)`: raises when the future is already resolved. -/
def setException (e : PyError) (f : Future) : Except Unit Future :=
  match f.state with
  | .pending => .ok { f with state := .failed e }
  | _ => .error ()

/-- The `try: cb(future) except: traceback.print_exc()` body of
`_for_each_future`: a raising callback is absorbed, leaving the future
as the callback left it (for `set_result`/`set_exception` a raise means
the future was not modified). -/
def absorb (cb : Future → Except Unit Future) (f : Future) : Future :=
  match cb f with
  | .ok g => g
  | .error _ => f

/-- The loop of `BasePlaylistEntry._for_each_future`: cancelled futures are
skipped (`continue`), every other future gets the callback, with any
callback error absorbed, and the loop always continues to the next
future. -/
def forEachFuture (cb : Future → Except Unit Future) : List Future → List Future
  | [] => []
  | f :: rest => (if f.cancelled then f else absorb cb f) :: forEachFuture cb rest

/-- The `BasePlaylistEntry` fields shared by both variants:
`self.filename`, `self._is_downloading`, `self._waiting_futures`. -/
structure BaseState where
  filename : Option String
  is_downloading : Bool
  waiting : List Future
  deriving DecidableEq, Repr

/-- Model of `BasePlaylistEntry.is_downloaded`: false while downloading, else the
Python truthiness of `self.filename` (both `None` and `""` are falsy). -/
def is_downloaded (b : BaseState) : Bool :=
  if b.is_downloading then false
  else
    match b.filename with
    | none => false
    | some s => s != ""

/-- Model of `BasePlaylistEntry._for_each_future` in context: the registry is read,
replaced by `[]`, and the callback loop runs over the old registry.
Returns the new base state and the (externally held) notified futures. -/
def resolveAll (cb : Future → Except Unit Future) (b : BaseState) :
    BaseState × List Future :=
  ({ b with waiting := [] }, forEachFuture cb b.waiting)

/-- The observable outcome of one `get_ready_future` call: the future
returned to the caller, the updated base state, and whether
`asyncio.ensure_future(self._download())` was invoked. -/
structure ReadyResult where
  future : Future
  base : BaseState
  scheduled : Bool
  deriving DecidableEq, Repr

/-- Model of `BasePlaylistEntry.get_ready_future`: when `is_downloaded`, return an
already-resolved future without touching the registry or scheduling a
download; otherwise schedule `_download` and register a fresh pending
future. -/
def get_ready_future (b : BaseState) : ReadyResult :=
  if is_downloaded b then
    { future := { cancelled := false, state := .result }, base := b, scheduled := false }
  else
    let f : Future := { cancelled := false, state := .pending }
    { future := f, base := { b with waiting := b.waiting ++ [f] }, scheduled := true }

/-- A chat member (`discord.Member`): only the fields the codec touches. -/
structure Member where
  id : Nat
  name : String

/-- A chat channel (`discord.Channel`): `server` models
`channel.server.get_member`. -/
structure Channel where
  id : Nat
  name : String
  server : Nat → Option Member

/-- The `**meta` attribution map of a `URLPlaylistEntry`, restricted to the
two keys the codec ever reads (`channel`, `author`); `none` models an
absent key. -/
structure URLMeta where
  channel : Option Channel := none
  author : Option Member := none

/-- Model of `URLPlaylistEntry`: the base fields plus the constructor fields.
`download_folder` is copied from `playlist.downloader.download_folder`
at construction. -/
structure URLState extends BaseState where
  url : String
  title : String
  duration : Nat
  expected_filename : String
  download_folder : String
  meta : URLMeta := {}

/-- The environment one run of `URLPlaylistEntry._download` interacts
with.  `listing` is `os.listdir(download_folder)`; `sizeOf` is
`os.path.getsize`; `probe` is the parsed `CONTENT-LENGTH` header (`none`
models any failure of the probe or of `int(...)`); `extract` is
`downloader.extract_info(..., download=True)` followed by
`ytdl.prepare_filename` (`error` = the extractor raised, `ok none` =
extractor returned `None`, `ok (some f)` = prepared filename `f`);
`hash8` is `utils.md5sum(unhashed, 8)` (modelled from the spec: an
8-hex-character content-hash fragment, `utils.py` is outside `src/`);
`hashedExists` is `os.path.isfile` at the hashed path. -/
structure URLEnv where
  listing : List String
  sizeOf : String → Nat
  probe : Option Nat
  extract : Except String (Option String)
  hash8 : String
  hashedExists : Bool

/-- The filesystem mutation performed at the end of a hashed fetch. -/
inductive FileAction where
  | nothing
  | unlinked (path : String)
  | renamed (src dst : String)
  deriving DecidableEq, Repr

/-- Result of the body of the download routine (before future
resolution): the updated entry, the raised error if any, the number of
extractor fetch calls, and the filesystem action taken. -/
structure BodyResult where
  entry : URLState
  err : Option PyError := none
  fetches : Nat := 0
  action : FileAction := .nothing

/-- Model of `md5sum(unhashed, 8).join('-.').join(unhashed.rsplit('.', 1))`:
`'-h.'.join([a, b]) = a ++ "-" ++ h ++ "." ++ b` when the name splits at
its last `'.'`, and the unchanged name when it has no `'.'` (a one-element
`rsplit` makes `join` return the element itself). -/
def spliceHash (h : String) (unhashed : String) : String :=
  match rsplit1 '.' unhashed with
  | (a, some b) => a ++ "-" ++ h ++ "." ++ b
  | (a, none) => a

/-- Model of `URLPlaylistEntry._really_download(hash=useHash)`: an extractor raise
is wrapped into `ExtractionError`; a `None` result raises
`ExtractionError`; otherwise the prepared filename becomes
`self.filename`, and with `hash=True` it is overwritten by the
hash-spliced name, deleting the fresh file when the hashed path already
exists and renaming it there otherwise. -/
def reallyDownload (env : URLEnv) (e : URLState) (useHash : Bool) : BodyResult :=
  match env.extract with
  | .error m => { entry := e, err := some (.extraction m), fetches := 1 }
  | .ok none => { entry := e, err := some .extractionNull, fetches := 1 }
  | .ok (some unhashed) =>
    if useHash then
      let hashed := spliceHash env.hash8 unhashed
      { entry := { e with filename := some hashed },
        fetches := 1,
        action := if env.hashedExists then .unlinked unhashed else .renamed unhashed hashed }
    else
      { entry := { e with filename := some unhashed }, fetches := 1 }

/-- The `try:` body of `URLPlaylistEntry._download` (after the guard and
the `_is_downloading = True` assignment): derive the extractor id from
the expected basename, then either probe the cache (generic and
non-generic branches) or fall through to `_really_download`. -/
def urlDownloadBody (env : URLEnv) (e : URLState) : BodyResult :=
  let base := basename e.expected_filename
  if firstField '-' base = "generic" then
    match rsplit1 '.' base with
    | (_, none) => { entry := e, err := some .valueErr }
    | (noex, some _) =>
      match env.listing.find? (fun f => (rsplit1 '-' f).1 == noex) with
      | some cand =>
        let rsize := env.probe.getD 0
        let lfile := pjoin e.download_folder cand
        if env.sizeOf lfile != rsize then reallyDownload env e true
        else { entry := { e with filename := some lfile } }
      | none => reallyDownload env e true
  else
    if env.listing.contains base then
      { entry := { e with filename := some (pjoin e.download_folder base) } }
    else
      match env.listing.find? (fun f => (rsplit1 '.' f).1 == (rsplit1 '.' base).1) with
      | some f => { entry := { e with filename := some (pjoin e.download_folder f) } }
      | none => reallyDownload env e false

/-- The observable outcome of one `URLPlaylistEntry._download` call. -/
structure DlResult where
  entry : URLState
  notified : List Future
  fetches : Nat
  action : FileAction
  raised : Option PyError

/-- Model of `URLPlaylistEntry._download`: the re-entrancy guard, the body, then —
success or raise — the future fan-out (`set_result` / `set_exception`)
which also clears the registry, and the `finally:` clause clearing
`_is_downloading`. -/
def urlDownload (env : URLEnv) (e : URLState) : DlResult :=
  if e.is_downloading then
    { entry := e, notified := [], fetches := 0, action := .nothing, raised := none }
  else
    let r := urlDownloadBody env { e with is_downloading := true }
    match r.err with
    | none =>
      { entry := { r.entry with waiting := [], is_downloading := false },
        notified := forEachFuture setResult r.entry.waiting,
        fetches := r.fetches, action := r.action, raised := none }
    | some ex =>
      { entry := { r.entry with waiting := [], is_downloading := false },
        notified := forEachFuture (setException ex) r.entry.waiting,
        fetches := r.fetches, action := r.action, raised := some ex }

/-- The channel slot of a deserialized `StreamPlaylistEntry` meta:
`playlist.bot.get_channel(id) or data['meta']['channel']['name']`. -/
inductive ChanVal where
  | chan (c : Channel)
  | fallbackName (s : String)

/-- The `**meta` attribution map of a `StreamPlaylistEntry`. -/
structure StreamMeta where
  channel : Option ChanVal := none
  author : Option Member := none

/-- Model of `StreamPlaylistEntry`: `url` is the raw constructor `_url`;
`filename` is set to it at construction when `direct`. -/
structure StreamState extends BaseState where
  url : String
  source_url : Option String
  title : String
  direct : Bool
  duration : Nat := 0
  meta : StreamMeta := {}

/-- The `StreamPlaylistEntry` constructor. -/
def mkStream (url title : String) (direct : Bool) (source_url : Option String)
    (meta : StreamMeta) : StreamState :=
  { filename := if direct then some url else none,
    is_downloading := false, waiting := [],
    url := url, source_url := source_url, title := title, direct := direct,
    meta := meta }

/-- Model of `StreamPlaylistEntry.url`: `self.source_url or self._url`
(Python `or`, so an empty `source_url` also falls back). -/
def StreamState.effectiveUrl (e : StreamState) : String :=
  match e.source_url with
  | some s => if s = "" then e.url else s
  | none => e.url

/-- Environment of `StreamPlaylistEntry._download`:
`extract_info(..., download=False)`; `ok none` models a `None` result
(whose `result['url']` subscript raises `TypeError`, outside the
`except` that wraps extractor errors). -/
structure StreamEnv where
  extract : Except String (Option String)

/-- The observable outcome of one `StreamPlaylistEntry._download` call. -/
structure StreamDlResult where
  entry : StreamState
  notified : List Future
  fetches : Nat
  raised : Option PyError

/-- Model of `StreamPlaylistEntry._download`: no re-entrancy guard, one
`extract_info` call, `self.filename = result['url']` on success, a
`finally:` clearing `_is_downloading` — and no call to
`_for_each_future`, so the waiting registry is left untouched. -/
def streamDownload (env : StreamEnv) (e : StreamState) : StreamDlResult :=
  let e1 : StreamState := { e with is_downloading := true }
  match env.extract with
  | .error m =>
    { entry := { e1 with is_downloading := false }, notified := [],
      fetches := 1, raised := some (.extraction m) }
  | .ok none =>
    { entry := { e1 with is_downloading := false }, notified := [],
      fetches := 1, raised := some .typeErr }
  | .ok (some u) =>
    { entry := { e1 with filename := some u, is_downloading := false },
      notified := [], fetches := 1, raised := none }

/-- One serialized attribution field: `{'type': ..., 'id': ..., 'name': ...}`. -/
structure OwnerRef where
  type : String
  id : Nat
  name : String
  deriving DecidableEq, Repr

/-- The serialized `meta` block, restricted to the two keys the
deserializers read; `none` models an absent key. -/
structure MetaRecord where
  channel : Option OwnerRef := none
  author : Option OwnerRef := none
  deriving DecidableEq, Repr

/-- The persisted record of a `URLPlaylistEntry`.  An outer `none` models
an absent key (Python `data['k']` raises `KeyError`); `filename` is
doubly optional because its value is legitimately `null` when the entry
was not downloaded. -/
structure URLRecord where
  version : Nat := 1
  url : Option String
  title : Option String
  duration : Option Nat
  downloaded : Option Bool
  expected_filename : Option String
  filename : Option (Option String)
  meta : Option MetaRecord
  deriving DecidableEq, Repr

/-- The persisted record of a `StreamPlaylistEntry`. -/
structure StreamRecord where
  version : Nat := 1
  url : Option String
  title : Option String
  direct : Option Bool
  meta : Option MetaRecord
  deriving DecidableEq, Repr

/-- The reconstruction key block written for one live owner object. -/
def refOfChannel (c : Channel) : OwnerRef :=
  { type := "Channel", id := c.id, name := c.name }

/-- The reconstruction key block written for one live member object. -/
def refOfMember (m : Member) : OwnerRef :=
  { type := "Member", id := m.id, name := m.name }

/-- The `meta` block of `URLPlaylistEntry.__json__`. -/
def urlMetaJson (m : URLMeta) : MetaRecord :=
  { channel := m.channel.map refOfChannel, author := m.author.map refOfMember }

/-- Model of `URLPlaylistEntry.__json__`. -/
def urlJson (e : URLState) : URLRecord :=
  { version := 1,
    url := some e.url,
    title := some e.title,
    duration := some e.duration,
    downloaded := some (is_downloaded e.toBaseState),
    expected_filename := some e.expected_filename,
    filename := some e.filename,
    meta := some (urlMetaJson e.meta) }

/-- The injected resolver context of `_deserialize`: the `playlist`
argument, of which the codec uses `playlist.bot.get_channel` and
`playlist.downloader.download_folder`. -/
structure Bot where
  get_channel : Nat → Option Channel
  download_folder : String

/-- Model of `URLPlaylistEntry._deserialize`: the `try:` block reads every
required key (a missing key raises `KeyError`, caught by the
`except Exception` which logs and returns `None`, modelled by `none`).
`meta['channel']` is set to `bot.get_channel(id)` even when that is
`None`; a present `author` key then needs the `channel` key to be
present (`KeyError` otherwise) and its value to be a live channel
(`None.server` raises `AttributeError` otherwise).  A successfully
rebuilt entry always gets `_is_downloading = False` and a filename
only when the record's `downloaded` flag was true.  (The dict value
`meta['channel'] = None` is flattened to an absent `channel` in the
rebuilt entry's meta.) -/
def urlDeserialize (bot : Bot) (d : URLRecord) : Option URLState :=
  match d.url, d.title, d.duration, d.downloaded, d.expected_filename, d.meta with
  | some url, some title, some dur, some downloaded, some expected, some m =>
    match (if downloaded then d.filename else some none) with
    | none => none
    | some fn =>
      let chKey : Option (Option Channel) := m.channel.map (fun r => bot.get_channel r.id)
      let build : URLMeta → URLState := fun mt =>
        { url := url, title := title, duration := dur,
          expected_filename := expected, download_folder := bot.download_folder,
          filename := fn, is_downloading := false, waiting := [], meta := mt }
      match m.author with
      | none =>
        some (build { channel := chKey.getD none, author := none })
      | some aref =>
        match chKey with
        | none => none
        | some none => none
        | some (some c) =>
          some (build { channel := some c, author := c.server aref.id })
  | _, _, _, _, _, _ => none

/-- The `meta` block of `StreamPlaylistEntry.__json__`.  A deserialized
name-fallback channel is a plain string, whose `.id` access would raise
(`none` models the raise). -/
def streamMetaJson (m : StreamMeta) : Option MetaRecord :=
  match m.channel with
  | some (.fallbackName _) => none
  | some (.chan c) =>
    some { channel := some (refOfChannel c), author := m.author.map refOfMember }
  | none => some { channel := none, author := m.author.map refOfMember }

/-- Model of `StreamPlaylistEntry.__json__`: records the raw `_url`, the title,
the `direct` flag and the meta block — nothing else. -/
def streamJson (e : StreamState) : Option StreamRecord :=
  (streamMetaJson e.meta).map (fun mr =>
    { version := 1, url := some e.url, title := some e.title,
      direct := some e.direct, meta := some mr })

/-- Model of `StreamPlaylistEntry._deserialize`: required keys as for the URL
variant; an unresolvable channel id falls back to the recorded name
string (`ch or data['meta']['channel']['name']`); a present `author`
then raises on the string fallback (`str.server`) or on a missing
`channel` key (`KeyError`). The constructor is called without
`source_url`, so the rebuilt entry's `source_url` is `None` and its
filename is the raw url exactly when `direct`. -/
def streamDeserialize (bot : Bot) (d : StreamRecord) : Option StreamState :=
  match d.url, d.title, d.direct, d.meta with
  | some url, some title, some direct, some m =>
    let chKey : Option ChanVal :=
      m.channel.map (fun r =>
        match bot.get_channel r.id with
        | some c => .chan c
        | none => .fallbackName r.name)
    match m.author with
    | none => some (mkStream url title direct none { channel := chKey, author := none })
    | some aref =>
      match chKey with
      | none => none
      | some (.fallbackName _) => none
      | some (.chan c) =>
        some (mkStream url title direct none
          { channel := chKey, author := c.server aref.id })
  | _, _, _, _ => none

/-- Deserializing a batch of URL records: each failed record is dropped
(logged in Python), the rest of the batch continues. -/
def urlDeserializeAll (bot : Bot) (rs : List URLRecord) : List URLState :=
  rs.filterMap (urlDeserialize bot)

/-! ### Concrete fixtures used by the per-claim evaluation theorems -/

/-- A stream entry with one registered pending readiness handle. -/
def c1entry : StreamState :=
  { filename := none, is_downloading := false,
    waiting := [{ cancelled := false, state := .pending }],
    url := "https://u.example/live", source_url := none, title := "t", direct := false }

/-- A stream environment whose probe succeeds. -/
def c1env : StreamEnv := { extract := .ok (some "https://resolved.example/live") }

/-- A stream entry that is currently DOWNLOADING. -/
def c2sentry : StreamState :=
  { filename := none, is_downloading := true, waiting := [],
    url := "https://u.example/watch", source_url := none, title := "t", direct := false }

/-- A stream environment for the re-entrancy check. -/
def c2senv : StreamEnv := { extract := .ok (some "https://resolved.example/stream") }

/-- A URL entry that is currently DOWNLOADING. -/
def c2uentry : URLState :=
  { filename := none, is_downloading := true,
    waiting := [{ cancelled := false, state := .pending }],
    url := "https://y.example/watch?v=id1", title := "t", duration := 180,
    expected_filename := "audio_cache/youtube-id1-t.m4a", download_folder := "audio_cache" }

/-- A URL environment in which a fetch would visibly succeed. -/
def c2uenv : URLEnv :=
  { listing := [], sizeOf := fun _ => 0, probe := none,
    extract := .ok (some "audio_cache/youtube-id1-t.m4a"), hash8 := "0a1b2c3d",
    hashedExists := false }

/-- A READY base state: local path set, not downloading. -/
def c3base : BaseState :=
  { filename := some "audio_cache/a.mp3", is_downloading := false, waiting := [] }

/-- A URL entry handled by the generic extractor. -/
def c4entry : URLState :=
  { filename := none, is_downloading := false, waiting := [],
    url := "https://g.example/x", title := "t", duration := 0,
    expected_filename := "audio_cache/generic-song.mp3", download_folder := "audio_cache" }

/-- A cache directory holding a hash-disambiguated candidate of matching
size, with a successful content-length probe. -/
def c4env : URLEnv :=
  { listing := ["generic-song-0a1b2c3d.mp3"], sizeOf := fun _ => 5, probe := some 5,
    extract := .ok none, hash8 := "0a1b2c3d", hashedExists := false }

/-- A URL entry handled by a non-generic extractor. -/
def c5entry : URLState :=
  { filename := none, is_downloading := false, waiting := [],
    url := "https://y.example/watch?v=id1", title := "t", duration := 180,
    expected_filename := "audio_cache/youtube-id1-t.m4a", download_folder := "audio_cache" }

/-- A cache directory holding the exact expected file. -/
def c5env : URLEnv :=
  { listing := ["youtube-id1-t.m4a"], sizeOf := fun _ => 0, probe := none,
    extract := .error "never called", hash8 := "0a1b2c3d", hashedExists := false }

/-- A bare URL entry for exercising `_really_download` directly. -/
def c6entry : URLState :=
  { filename := none, is_downloading := false, waiting := [],
    url := "https://g.example/x", title := "t", duration := 0,
    expected_filename := "audio_cache/generic-song.mp3", download_folder := "audio_cache" }

/-- An environment whose extractor raises. -/
def c6envErr : URLEnv :=
  { listing := [], sizeOf := fun _ => 0, probe := none,
    extract := .error "boom", hash8 := "0a1b2c3d", hashedExists := false }

/-- An environment whose extractor returns `None`. -/
def c6envNull : URLEnv :=
  { listing := [], sizeOf := fun _ => 0, probe := none,
    extract := .ok none, hash8 := "0a1b2c3d", hashedExists := false }

/-- An environment whose extractor fetches `audio_cache/generic-song.mp3`,
with no file already at the hashed path. -/
def c6envOk : URLEnv :=
  { listing := [], sizeOf := fun _ => 0, probe := none,
    extract := .ok (some "audio_cache/generic-song.mp3"), hash8 := "0a1b2c3d",
    hashedExists := false }

/-- A live member. -/
def alice : Member := { id := 7, name := "alice" }

/-- A live channel that can resolve `alice`. -/
def generalChan : Channel :=
  { id := 1, name := "general",
    server := fun k => if k = 7 then some alice else none }

/-- A resolver that maps every stored owner id back to the live objects. -/
def c7bot : Bot :=
  { get_channel := fun n => if n = 1 then some generalChan else none,
    download_folder := "audio_cache" }

/-- A READY URL entry whose meta holds a channel and an author. -/
def c7entry : URLState :=
  { filename := some "audio_cache/youtube-id1-t.m4a", is_downloading := false, waiting := [],
    url := "https://y.example/watch?v=id1", title := "t", duration := 180,
    expected_filename := "audio_cache/youtube-id1-t.m4a", download_folder := "audio_cache",
    meta := { channel := some generalChan, author := some alice } }

/-- A READY URL entry whose meta holds an author but no channel. -/
def c7cexEntry : URLState :=
  { filename := some "audio_cache/youtube-id1-t.m4a", is_downloading := false, waiting := [],
    url := "https://y.example/watch?v=id1", title := "t", duration := 180,
    expected_filename := "audio_cache/youtube-id1-t.m4a", download_folder := "audio_cache",
    meta := { channel := none, author := some alice } }

/-- A resolver that cannot find any channel. -/
def c8botNone : Bot :=
  { get_channel := fun _ => none, download_folder := "audio_cache" }

/-- A well-formed URL record whose only owner reference is a channel id the
resolver cannot find. -/
def c8recUnresolvable : URLRecord :=
  { url := some "https://y.example/watch?v=id1", title := some "t", duration := some 180,
    downloaded := some false, expected_filename := some "audio_cache/youtube-id1-t.m4a",
    filename := some none,
    meta := some { channel := some { type := "Channel", id := 5, name := "general" } } }

/-- A URL record missing its required `url` key. -/
def c8recMissingUrl : URLRecord :=
  { url := none, title := some "t", duration := some 180,
    downloaded := some false, expected_filename := some "audio_cache/youtube-id1-t.m4a",
    filename := some none, meta := some {} }

/-- A URL record holding an author reference but no channel reference. -/
def c8recAuthorNoChannel : URLRecord :=
  { url := some "https://y.example/watch?v=id3", title := some "t3", duration := some 10,
    downloaded := some false,
    expected_filename := some "audio_cache/youtube-id3-t3.m4a",
    filename := some none,
    meta := some { author := some { type := "Member", id := 7, name := "alice" } } }

/-- A well-formed URL record with no owner references at all. -/
def c8recPlain : URLRecord :=
  { url := some "https://y.example/watch?v=id2", title := some "t2", duration := some 10,
    downloaded := some false, expected_filename := some "audio_cache/youtube-id2-t2.m4a",
    filename := some none, meta := some {} }

/-- A registry with a cancelled handle, an already-resolved handle (on
which `set_result` raises) and a live pending handle. -/
def c9base : BaseState :=
  { filename := none, is_downloading := true,
    waiting := [{ cancelled := true, state := .pending },
                { cancelled := false, state := .result },
                { cancelled := false, state := .pending }] }

/-- A stream entry holding a resolved stream URL and a distinct source
url, for the persistence-independence check. -/
def c10entry : StreamState :=
  { filename := some "https://resolved.example/live", is_downloading := false, waiting := [],
    url := "https://raw.example/channel", source_url := some "https://actual.example/page",
    title := "t", direct := true }

/-- A direct stream record. -/
def c10rec : StreamRecord :=
  { url := some "https://raw.example/channel", title := some "t",
    direct := some true, meta := some {} }

/-- A resolver for the stream record (no owner references to resolve). -/
def c10bot : Bot :=
  { get_channel := fun _ => none, download_folder := "audio_cache" }

/-! ### Helper lemmas -/

theorem forEachFuture_length (cb : Future → Except Unit Future) (l : List Future) :
    (forEachFuture cb l).length = l.length := by
  induction l with
  | nil => rfl
  | cons f rest ih => simp [forEachFuture, ih]

theorem forEachFuture_getElem? (cb : Future → Except Unit Future) (l : List Future)
    (i : Nat) :
    (forEachFuture cb l)[i]? =
      (l[i]?).map (fun f => if f.cancelled then f else absorb cb f) := by
  induction l generalizing i with
  | nil => simp [forEachFuture]
  | cons f rest ih =>
    cases i with
    | zero => simp [forEachFuture]
    | succ n => simpa [forEachFuture] using ih n

theorem reallyDownload_probe_irrelevant (env : URLEnv) (p : Option Nat)
    (e : URLState) (h : Bool) :
    reallyDownload { env with probe := p } e h = reallyDownload env e h := rfl

theorem length_filterMap_countP {α β : Type} (f : α → Option β) (l : List α) :
    (l.filterMap f).length = l.countP (fun a => (f a).isSome) := by
  induction l with
  | nil => rfl
  | cons a rest ih =>
    cases h : f a with
    | none => simp [List.filterMap_cons, List.countP_cons, h, ih]
    | some b => simp [List.filterMap_cons, List.countP_cons, h, ih]

theorem streamDeserialize_shape (bot : Bot) (d : StreamRecord) (e2 : StreamState)
    (h : streamDeserialize bot d = some e2) :
    ∃ url title direct m mt,
      d.url = some url ∧ d.title = some title ∧ d.direct = some direct ∧
      d.meta = some m ∧
      (∀ aref, m.author = some aref →
        ∃ cref c, m.channel = some cref ∧ bot.get_channel cref.id = some c) ∧
      e2 = mkStream url title direct none mt := by
  rcases d with ⟨v, u0, t0, dir0, m0⟩
  cases u0 with
  | none => simp [streamDeserialize] at h
  | some url =>
    cases t0 with
    | none => simp [streamDeserialize] at h
    | some title =>
      cases dir0 with
      | none => simp [streamDeserialize] at h
      | some dir =>
        cases m0 with
        | none => simp [streamDeserialize] at h
        | some m =>
          cases hA : m.author with
          | none =>
            simp [streamDeserialize, hA] at h
            refine ⟨url, title, dir, m, _, rfl, rfl, rfl, rfl, ?_, h.symm⟩
            intro aref ha
            rw [hA] at ha
            cases ha
          | some aref =>
            cases hC : m.channel with
            | none => simp [streamDeserialize, hA, hC] at h
            | some cref =>
              cases hB : bot.get_channel cref.id with
              | none => simp [streamDeserialize, hA, hC, hB] at h
              | some c =>
                simp [streamDeserialize, hA, hC, hB] at h
                refine ⟨url, title, dir, m, _, rfl, rfl, rfl, rfl, ?_, h.symm⟩
                intro aref2 ha2
                exact ⟨cref, c, hC, hB⟩

theorem urlDeserialize_shape (bot : Bot) (d : URLRecord) (e2 : URLState)
    (h : urlDeserialize bot d = some e2) :
    ∃ url title dur downloaded expected fn m mt,
      d.url = some url ∧ d.title = some title ∧ d.duration = some dur ∧
      d.downloaded = some downloaded ∧ d.expected_filename = some expected ∧
      d.meta = some m ∧
      (if downloaded then d.filename else some none) = some fn ∧
      (∀ aref, m.author = some aref →
        ∃ cref c, m.channel = some cref ∧ bot.get_channel cref.id = some c) ∧
      e2 = { url := url, title := title, duration := dur, expected_filename := expected,
             download_folder := bot.download_folder, filename := fn,
             is_downloading := false, waiting := [], meta := mt } := by
  rcases d with ⟨v, u0, t0, dur0, dl0, ex0, fn0, m0⟩
  cases u0 with
  | none => simp [urlDeserialize] at h
  | some url =>
    cases t0 with
    | none => simp [urlDeserialize] at h
    | some title =>
      cases dur0 with
      | none => simp [urlDeserialize] at h
      | some dur =>
        cases dl0 with
        | none => simp [urlDeserialize] at h
        | some dl =>
          cases ex0 with
          | none => simp [urlDeserialize] at h
          | some expected =>
            cases m0 with
            | none => simp [urlDeserialize] at h
            | some m =>
              cases hfn : (if dl then fn0 else some none) with
              | none => simp [urlDeserialize, hfn] at h
              | some fn =>
                cases hA : m.author with
                | none =>
                  simp [urlDeserialize, hfn, hA] at h
                  refine ⟨url, title, dur, dl, expected, fn, m, _,
                    rfl, rfl, rfl, rfl, rfl, rfl, hfn, ?_, h.symm⟩
                  intro aref ha
                  rw [hA] at ha
                  cases ha
                | some aref =>
                  cases hC : m.channel with
                  | none => simp [urlDeserialize, hfn, hA, hC] at h
                  | some cref =>
                    cases hB : bot.get_channel cref.id with
                    | none => simp [urlDeserialize, hfn, hA, hC, hB] at h
                    | some c =>
                      simp [urlDeserialize, hfn, hA, hC, hB] at h
                      refine ⟨url, title, dur, dl, expected, fn, m, _,
                        rfl, rfl, rfl, rfl, rfl, rfl, hfn, ?_, h.symm⟩
                      intro aref2 ha2
                      exact ⟨cref, c, hC, hB⟩

theorem is_downloaded_eq_true (b : BaseState) (h : is_downloaded b = true) :
    b.is_downloading = false ∧ ∃ s, b.filename = some s ∧ (s != "") = true := by
  unfold is_downloaded at h
  cases hb : b.is_downloading with
  | true => rw [hb] at h; simp at h
  | false =>
    rw [hb] at h
    cases hf : b.filename with
    | none => rw [hf] at h; simp at h
    | some s =>
      rw [hf] at h
      exact ⟨rfl, s, rfl, by simpa using h⟩

/-! ### Claim theorems -/

/-- Claim C3: for every entry that is already READY (`is_downloaded`: local
path set — Python-truthy — and not downloading), `get_ready_future` returns
a future that is already resolved with the entry itself, synchronously,
without registering the future in the waiting registry (the base state is
untouched) and without scheduling the download routine (so no network or
filesystem I/O). -/
theorem C3_ready_future_immediate (b : BaseState) (h : is_downloaded b = true) :
    get_ready_future b =
      { future := { cancelled := false, state := .result },
        base := b, scheduled := false } := by
  unfold get_ready_future
  simp [h]

theorem C3_ready_future_immediate_witness :
    is_downloaded c3base = true ∧
    get_ready_future c3base =
      { future := { cancelled := false, state := .result },
        base := c3base, scheduled := false } :=
  ⟨by decide, C3_ready_future_immediate c3base (by decide)⟩

/-- Claim C9: entry resolution (`_for_each_future`) takes the current
waiting-handle registry and clears it, invokes the callback only on
handles that are not cancelled — a handle cancelled before resolution is
returned untouched, receiving no callback and causing no error — and an
exception raised by one handle's callback is absorbed (that handle is left
as the callback left it) without aborting the notification of all the
remaining handles (every index of the registry is processed). -/
theorem C9_notification_loop (cb : Future → Except Unit Future) (b : BaseState) :
    (resolveAll cb b).1.waiting = [] ∧
    (resolveAll cb b).2.length = b.waiting.length ∧
    (∀ (i : Nat) (f : Future), b.waiting[i]? = some f → f.cancelled = true →
      (resolveAll cb b).2[i]? = some f) ∧
    (∀ (i : Nat) (f : Future), b.waiting[i]? = some f → f.cancelled = false →
      (resolveAll cb b).2[i]? = some (absorb cb f)) := by
  refine ⟨rfl, forEachFuture_length cb b.waiting, ?_, ?_⟩
  · intro i f hf hc
    simp [resolveAll, forEachFuture_getElem?, hf, hc]
  · intro i f hf hc
    simp [resolveAll, forEachFuture_getElem?, hf, hc]

theorem C9_notification_loop_witness :
    (resolveAll setResult c9base).1.waiting = [] ∧
    (resolveAll setResult c9base).2[0]? = some { cancelled := true, state := .pending } ∧
    (resolveAll setResult c9base).2[1]? = some { cancelled := false, state := .result } ∧
    (resolveAll setResult c9base).2[2]? = some { cancelled := false, state := .result } :=
  ⟨(C9_notification_loop setResult c9base).1,
   (C9_notification_loop setResult c9base).2.2.1 0
     { cancelled := true, state := .pending } rfl rfl,
   (C9_notification_loop setResult c9base).2.2.2 1
     { cancelled := false, state := .result } rfl rfl,
   (C9_notification_loop setResult c9base).2.2.2 2
     { cancelled := false, state := .pending } rfl rfl⟩

/-- Claim C1 (code bug): `StreamPlaylistEntry._download` never calls
`_for_each_future`.  On this input it finishes normally (`raised = none`),
yet the handle registered via `get_ready_future` is still pending, no
handle was notified, and the registry was not cleared — only the
downloading flag was cleared.  This contradicts the claim (and the
`get_ready_future` docstring, which promises every returned future fires
with the entry or an error). -/
theorem C1_stream_download_never_resolves :
    (streamDownload c1env c1entry).raised = none ∧
    (streamDownload c1env c1entry).entry.waiting =
      [{ cancelled := false, state := .pending }] ∧
    (streamDownload c1env c1entry).notified = [] ∧
    (streamDownload c1env c1entry).entry.is_downloading = false :=
  ⟨rfl, rfl, rfl, rfl⟩

/-- Claim C2 counterexample: invoking the stream download routine while the
entry is already DOWNLOADING is not a no-op — it performs another
extractor call (`fetches = 1`, not `0`) and mutates the entry. -/
theorem C2_stream_not_noop_counterexample :
    (streamDownload c2senv c2sentry).fetches = 1 ∧
    (streamDownload c2senv c2sentry).entry.filename =
      some "https://resolved.example/stream" ∧
    c2sentry.is_downloading = true ∧ c2sentry.filename = none :=
  ⟨rfl, rfl, rfl, rfl⟩

/-- Claim C2 (amended): for URL entries, invoking the download routine
while the entry is already DOWNLOADING is a no-op (the state, registry and
environment are untouched and no fetch happens), so at most one URL
download routine is active per entry; the stream download routine lacks
the re-entrancy guard and performs an extractor call on every invocation,
so concurrent `get_ready_future` calls on a stream entry may trigger
multiple underlying fetches. -/
theorem C2_single_flight_amended :
    (∀ env e, e.is_downloading = true →
      urlDownload env e =
        { entry := e, notified := [], fetches := 0, action := .nothing,
          raised := none }) ∧
    (∀ env e, (streamDownload env e).fetches = 1) := by
  constructor
  · intro env e h
    unfold urlDownload
    simp [h]
  · intro env e
    unfold streamDownload
    cases hx : env.extract with
    | error m => simp
    | ok v => cases v <;> simp

theorem C2_single_flight_witness :
    urlDownload c2uenv c2uentry =
      { entry := c2uentry, notified := [], fetches := 0, action := .nothing,
        raised := none } ∧
    (streamDownload c2senv c2sentry).fetches = 1 :=
  ⟨C2_single_flight_amended.1 c2uenv c2uentry rfl,
   C2_single_flight_amended.2 c2senv c2sentry⟩

/-- Claim C5: for a URL entry with a non-generic extractor id, the
download-routine body reuses a directory file named exactly like the
expected basename (zero extractor fetches), else reuses the first file
whose extension-stripped name matches the expected base name (logged, not
an error, still zero fetches), and otherwise performs the full fetch
without hash-disambiguation. -/
theorem C5_nongeneric_cache (env : URLEnv) (e : URLState)
    (hng : firstField '-' (basename e.expected_filename) ≠ "generic") :
    (basename e.expected_filename ∈ env.listing →
      urlDownloadBody env e =
        { entry := { e with
            filename := some (pjoin e.download_folder (basename e.expected_filename)) } }) ∧
    (basename e.expected_filename ∉ env.listing →
      (∀ f, env.listing.find?
          (fun g => (rsplit1 '.' g).1 == (rsplit1 '.' (basename e.expected_filename)).1)
            = some f →
        urlDownloadBody env e =
          { entry := { e with filename := some (pjoin e.download_folder f) } }) ∧
      (env.listing.find?
          (fun g => (rsplit1 '.' g).1 == (rsplit1 '.' (basename e.expected_filename)).1)
            = none →
        urlDownloadBody env e = reallyDownload env e false)) := by
  refine ⟨?_, ?_⟩
  · intro hc
    unfold urlDownloadBody
    simp [hng, hc]
  · intro hc
    refine ⟨?_, ?_⟩
    · intro f hf
      unfold urlDownloadBody
      simp [hng, hc, hf]
    · intro hf
      unfold urlDownloadBody
      simp [hng, hc, hf]

theorem C5_nongeneric_cache_witness :
    firstField '-' (basename c5entry.expected_filename) ≠ "generic" ∧
    urlDownloadBody c5env c5entry =
      { entry := { c5entry with filename := some "audio_cache/youtube-id1-t.m4a" } } := by
  refine ⟨by decide, ?_⟩
  have h := (C5_nongeneric_cache c5env c5entry (by decide)).1 (by decide)
  exact h

/-- Claim C4: for a URL entry whose expected basename has extractor id
`generic` and splits into a base name and an extension, the
download-routine body (a) absorbs a failed content-length probe by
behaving exactly as if the probe had returned size 0 (no crash), (b) on a
directory candidate whose `-`-suffix-stripped name matches the expected
base name, reuses the candidate as the local path with zero fetches when
its byte size equals the probed remote size, (c) performs the full fetch
with hash-disambiguation when the sizes differ, and (d) also performs the
full fetch with hash-disambiguation when no candidate matches. -/
theorem C4_generic_cache_probe (env : URLEnv) (e : URLState) (noex ex : String)
    (hgen : firstField '-' (basename e.expected_filename) = "generic")
    (hsplit : rsplit1 '.' (basename e.expected_filename) = (noex, some ex)) :
    (env.probe = none →
      urlDownloadBody env e = urlDownloadBody { env with probe := some 0 } e) ∧
    (∀ cand, env.listing.find? (fun f => (rsplit1 '-' f).1 == noex) = some cand →
      (env.sizeOf (pjoin e.download_folder cand) = env.probe.getD 0 →
        urlDownloadBody env e =
          { entry := { e with filename := some (pjoin e.download_folder cand) } }) ∧
      (env.sizeOf (pjoin e.download_folder cand) ≠ env.probe.getD 0 →
        urlDownloadBody env e = reallyDownload env e true)) ∧
    (env.listing.find? (fun f => (rsplit1 '-' f).1 == noex) = none →
      urlDownloadBody env e = reallyDownload env e true) := by
  refine ⟨?_, ?_, ?_⟩
  · intro hp
    unfold urlDownloadBody
    simp only [hgen, hsplit, if_pos rfl]
    rcases hf : env.listing.find? (fun f => (rsplit1 '-' f).1 == noex) with _ | cand
    · simp [hf, reallyDownload_probe_irrelevant]
    · simp [hf, hp, reallyDownload_probe_irrelevant]
  · intro cand hf
    refine ⟨?_, ?_⟩
    · intro hsz
      unfold urlDownloadBody
      simp [hgen, hsplit, hf, hsz]
    · intro hsz
      unfold urlDownloadBody
      simp [hgen, hsplit, hf, hsz]
  · intro hf
    unfold urlDownloadBody
    simp [hgen, hsplit, hf]

theorem C4_generic_cache_probe_witness :
    urlDownloadBody c4env c4entry =
      { entry := { c4entry with
          filename := some "audio_cache/generic-song-0a1b2c3d.mp3" } } := by
  have h := ((C4_generic_cache_probe c4env c4entry "generic-song" "mp3"
      (by decide) (by decide)).2.1 "generic-song-0a1b2c3d.mp3" (by decide)).1 rfl
  exact h

/-- Claim C6: for every full fetch (`_really_download`): an extractor raise
is wrapped into the single `ExtractionError` kind carrying the original
error; a `None` extractor result raises an `ExtractionError`; and with
hash-disambiguation requested, the environment's content-hash fragment
(modelling `md5sum(file, 8)`) is spliced into the prepared filename
immediately before the extension, giving `name-<hash8>.ext` — of length
`|name| + |ext| + 10` when the fragment has 8 characters — and the fresh
file is deleted when a file already exists at the hashed path, renamed to
it otherwise; the hashed path becomes the local path. -/
theorem C6_really_download_spec (env : URLEnv) (e : URLState) :
    (∀ (hsh : Bool) (m : String), env.extract = .error m →
      reallyDownload env e hsh =
        { entry := e, err := some (.extraction m), fetches := 1 }) ∧
    (∀ (hsh : Bool), env.extract = .ok none →
      reallyDownload env e hsh =
        { entry := e, err := some .extractionNull, fetches := 1 }) ∧
    (∀ u a x, env.extract = .ok (some u) → rsplit1 '.' u = (a, some x) →
      reallyDownload env e true =
        { entry := { e with filename := some (a ++ "-" ++ env.hash8 ++ "." ++ x) },
          fetches := 1,
          action := if env.hashedExists then .unlinked u
                    else .renamed u (a ++ "-" ++ env.hash8 ++ "." ++ x) } ∧
      (env.hash8.length = 8 →
        (a ++ "-" ++ env.hash8 ++ "." ++ x).length = a.length + x.length + 10)) := by
  refine ⟨?_, ?_, ?_⟩
  · intro hsh m hm
    unfold reallyDownload
    simp [hm]
  · intro hsh hm
    unfold reallyDownload
    simp [hm]
  · intro u a x hu hx
    constructor
    · unfold reallyDownload
      simp [hu, spliceHash, hx]
    · intro h8
      have hdash : ("-" : String).length = 1 := rfl
      have hdot : ("." : String).length = 1 := rfl
      simp [String.length_append, h8, hdash, hdot]
      omega

theorem C6_really_download_spec_witness :
    reallyDownload c6envErr c6entry false =
      { entry := c6entry, err := some (.extraction "boom"), fetches := 1 } ∧
    reallyDownload c6envNull c6entry true =
      { entry := c6entry, err := some .extractionNull, fetches := 1 } ∧
    reallyDownload c6envOk c6entry true =
      { entry := { c6entry with
          filename := some "audio_cache/generic-song-0a1b2c3d.mp3" },
        fetches := 1,
        action := .renamed "audio_cache/generic-song.mp3"
          "audio_cache/generic-song-0a1b2c3d.mp3" } := by
  refine ⟨(C6_really_download_spec c6envErr c6entry).1 false "boom" rfl,
          (C6_really_download_spec c6envNull c6entry).2.1 true rfl, ?_⟩
  have h := ((C6_really_download_spec c6envOk c6entry).2.2
      "audio_cache/generic-song.mp3" "audio_cache/generic-song" "mp3"
      rfl (by decide)).1
  exact h

/-- Claim C10: stream persistence never records the resolved stream URL,
the `source_url` or the filename: the serialized record depends only on
the raw constructor url, title, direct flag and owner metadata (it is
unchanged under any `source_url` or local path); consequently every
deserialized stream entry has `source_url = None` and starts not
downloading, a non-direct record yields a PENDING entry (no local path),
and a direct record yields an entry whose local path equals the stored
raw url — even if the original entry had a distinct `source_url` or an
already-resolved stream URL. -/
theorem C10_stream_persistence (e : StreamState) (bot : Bot) (d : StreamRecord) :
    (∀ s f w dl, streamJson
        { e with source_url := s, filename := f, waiting := w, is_downloading := dl }
        = streamJson e) ∧
    (∀ e2, streamDeserialize bot d = some e2 →
      e2.source_url = none ∧ e2.is_downloading = false ∧
      (d.direct = some false → e2.filename = none) ∧
      (∀ u, d.direct = some true → d.url = some u →
        e2.filename = some u ∧ e2.url = u)) := by
  constructor
  · intro s f w dl
    rfl
  · intro e2 h
    obtain ⟨url, title, dir, m, mt, hu, ht, hd, hm, hauth, rfl⟩ :=
      streamDeserialize_shape bot d e2 h
    refine ⟨rfl, rfl, ?_, ?_⟩
    · intro hfalse
      rw [hd] at hfalse
      cases hfalse
      rfl
    · intro u htrue hurl
      rw [hd] at htrue
      cases htrue
      rw [hu] at hurl
      cases hurl
      exact ⟨rfl, rfl⟩

theorem C10_stream_persistence_witness :
    streamJson c10entry =
      streamJson { c10entry with source_url := none, filename := none } ∧
    streamDeserialize c10bot c10rec =
      some (mkStream "https://raw.example/channel" "t" true none {}) ∧
    (mkStream "https://raw.example/channel" "t" true none {}).source_url = none ∧
    (mkStream "https://raw.example/channel" "t" true none {}).filename =
      some "https://raw.example/channel" := by
  have h2 := (C10_stream_persistence c10entry c10bot c10rec).2
      (mkStream "https://raw.example/channel" "t" true none {}) rfl
  refine ⟨?_, rfl, h2.1, (h2.2.2.2 "https://raw.example/channel" rfl rfl).1⟩
  exact ((C10_stream_persistence
      { c10entry with source_url := none, filename := none } c10bot c10rec).1
      c10entry.source_url c10entry.filename c10entry.waiting
      c10entry.is_downloading).symm

/-- Claim C7 counterexample: a READY URLEntry whose meta holds an author
but no channel serializes fine, yet deserializing its record yields
nothing — the author resolution reads `meta['channel']`, raising
`KeyError` — even with a resolver able to map every stored owner id to a
live object.  The round trip does not yield a READY entry. -/
theorem C7_roundtrip_counterexample :
    is_downloaded c7cexEntry.toBaseState = true ∧
    urlDeserialize c7bot (urlJson c7cexEntry) = none :=
  ⟨rfl, rfl⟩

/-- Claim C7 (amended): for every READY URLEntry whose meta does not hold
an author without a channel, serializing and then deserializing with a
resolver that maps every stored owner id back to the live object yields an
entry that is immediately READY with the same localPath (and the same url
and meta), without re-downloading; moreover every successfully
deserialized entry starts with the downloading flag false, and with a
localPath only if the record's downloaded flag was true. -/
theorem C7_roundtrip_amended (bot : Bot) (e : URLState) (d : URLRecord)
    (hready : is_downloaded e.toBaseState = true)
    (hmeta : e.meta.author.isSome = true → e.meta.channel.isSome = true)
    (hchan : ∀ c, e.meta.channel = some c → bot.get_channel c.id = some c)
    (hmem : ∀ c a, e.meta.channel = some c → e.meta.author = some a →
      c.server a.id = some a) :
    ((urlDeserialize bot (urlJson e)).isSome = true ∧
     ∀ e2, urlDeserialize bot (urlJson e) = some e2 →
       e2.filename = e.filename ∧ is_downloaded e2.toBaseState = true ∧
       e2.is_downloading = false ∧ e2.url = e.url ∧ e2.meta = e.meta) ∧
    (∀ e2, urlDeserialize bot d = some e2 →
      e2.is_downloading = false ∧
      (d.downloaded = some false → e2.filename = none)) := by
  obtain ⟨hdl, s, hfn, hs⟩ := is_downloaded_eq_true e.toBaseState hready
  obtain ⟨⟨fn0, dl0, w0⟩, url0, t0, dur0, exp0, fld0, ⟨mc, ma⟩⟩ := e
  simp only at hdl hfn hready hmeta hchan hmem
  subst hdl
  subst hfn
  have hkey : urlDeserialize bot
      (urlJson ⟨⟨some s, false, w0⟩, url0, t0, dur0, exp0, fld0, ⟨mc, ma⟩⟩) = some
      { url := url0, title := t0, duration := dur0, expected_filename := exp0,
        download_folder := bot.download_folder, filename := some s,
        is_downloading := false, waiting := [], meta := ⟨mc, ma⟩ } := by
    cases ma with
    | none =>
      cases mc with
      | none => simp [urlDeserialize, urlJson, urlMetaJson, hready]
      | some c =>
        simp [urlDeserialize, urlJson, urlMetaJson, hready, refOfChannel, hchan c rfl]
    | some a =>
      cases mc with
      | none =>
        have := hmeta rfl
        simp at this
      | some c =>
        simp [urlDeserialize, urlJson, urlMetaJson, hready, refOfChannel,
          hchan c rfl, hmem c a rfl rfl, refOfMember]
  refine ⟨⟨by rw [hkey]; rfl, ?_⟩, ?_⟩
  · intro e2 h
    rw [hkey] at h
    cases Option.some.inj h
    refine ⟨rfl, ?_, rfl, rfl, rfl⟩
    simp [is_downloaded, hs]
  · intro e2 h
    obtain ⟨url, title, dur, dl, expected, fn, m, mt, hu, ht, hdur, hdl2, hex, hm, hfn2,
      hauth, rfl⟩ := urlDeserialize_shape bot d e2 h
    refine ⟨rfl, ?_⟩
    intro hfalse
    rw [hdl2] at hfalse
    cases Option.some.inj hfalse
    simp at hfn2
    rw [← hfn2]

/-- The entry the C7 round trip reconstructs. -/
theorem C7_roundtrip_amended_witness :
    (urlDeserialize c7bot (urlJson c7entry)).isSome = true ∧
    urlDeserialize c7bot (urlJson c7entry) = some
      { url := "https://y.example/watch?v=id1", title := "t", duration := 180,
        expected_filename := "audio_cache/youtube-id1-t.m4a",
        download_folder := "audio_cache",
        filename := some "audio_cache/youtube-id1-t.m4a",
        is_downloading := false, waiting := [],
        meta := { channel := some generalChan, author := some alice } } ∧
    ({ url := "https://y.example/watch?v=id2", title := "t2", duration := 10,
       expected_filename := "audio_cache/youtube-id2-t2.m4a",
       download_folder := "audio_cache", filename := none,
       is_downloading := false, waiting := [], meta := {} } : URLState).filename
      = none := by
  have h := C7_roundtrip_amended c7bot c7entry c8recPlain
    (by decide) (fun _ => rfl)
    (by intro c hc; cases Option.some.inj hc; rfl)
    (by intro c a hc ha; cases Option.some.inj hc; cases Option.some.inj ha; rfl)
  have h2 := h.2
    { url := "https://y.example/watch?v=id2", title := "t2", duration := 10,
      expected_filename := "audio_cache/youtube-id2-t2.m4a",
      download_folder := "audio_cache", filename := none,
      is_downloading := false, waiting := [], meta := {} } rfl
  exact ⟨h.1.1, rfl, h2.2 rfl⟩

/-- Claim C8 counterexample: a well-formed record whose only owner
reference is a channel id the resolver cannot find is NOT dropped —
`meta['channel'] = bot.get_channel(id)` stores the `None` without raising
and the entry is rebuilt — contradicting the claim that deserialization
fails the whole record whenever the resolver cannot find a referenced
owner. -/
theorem C8_unresolvable_owner_counterexample :
    c8botNone.get_channel 5 = none ∧
    (urlDeserialize c8botNone c8recUnresolvable).isSome = true :=
  ⟨rfl, rfl⟩

/-- Claim C8 (amended): deserialization fails the whole record — returning
nothing rather than raising — whenever a required field is absent (for a
URL record also when `downloaded` is true but `filename` is absent), and
when a present `author` reference cannot be resolved because the
`channel` reference is missing or its id unresolvable; an unresolvable
channel id alone does NOT fail the record (the URL variant stores the
`None`, the stream variant falls back to the recorded name), so only
records that actually fail deserialization are dropped from a batch: the
batch yields exactly the entries of the successfully deserialized
records. -/
theorem C8_deserialize_failures_amended (bot : Bot) (d : URLRecord)
    (ds : StreamRecord) (rs : List URLRecord) :
    ((d.url = none ∨ d.title = none ∨ d.duration = none ∨ d.downloaded = none ∨
      d.expected_filename = none ∨ d.meta = none ∨
      (d.downloaded = some true ∧ d.filename = none)) →
      urlDeserialize bot d = none) ∧
    ((ds.url = none ∨ ds.title = none ∨ ds.direct = none ∨ ds.meta = none) →
      streamDeserialize bot ds = none) ∧
    (∀ m aref, d.meta = some m → m.author = some aref →
      (m.channel = none → urlDeserialize bot d = none) ∧
      (∀ cref, m.channel = some cref → bot.get_channel cref.id = none →
        urlDeserialize bot d = none)) ∧
    (∀ m aref, ds.meta = some m → m.author = some aref →
      (m.channel = none → streamDeserialize bot ds = none) ∧
      (∀ cref, m.channel = some cref → bot.get_channel cref.id = none →
        streamDeserialize bot ds = none)) ∧
    (∀ url title dur expected m, d.url = some url → d.title = some title →
      d.duration = some dur → d.downloaded = some false →
      d.expected_filename = some expected → d.meta = some m →
      m.author = none → (urlDeserialize bot d).isSome = true) ∧
    (∀ url title dir m, ds.url = some url → ds.title = some title →
      ds.direct = some dir → ds.meta = some m → m.author = none →
      (streamDeserialize bot ds).isSome = true) ∧
    (urlDeserializeAll bot rs).length =
      rs.countP (fun r => (urlDeserialize bot r).isSome) := by
  refine ⟨?_, ?_, ?_, ?_, ?_, ?_, length_filterMap_countP _ rs⟩
  · intro hbad
    cases hres : urlDeserialize bot d with
    | none => rfl
    | some e2 =>
      exfalso
      obtain ⟨url, title, dur, dl, expected, fn, m, mt, hu, ht, hdur, hdl2, hex, hm,
        hfn2, hauth, rfl⟩ := urlDeserialize_shape bot d e2 hres
      rcases hbad with h | h | h | h | h | h | ⟨h1, h2⟩ <;> simp_all
  · intro hbad
    cases hres : streamDeserialize bot ds with
    | none => rfl
    | some e2 =>
      exfalso
      obtain ⟨url, title, dir, m, mt, hu, ht, hd, hm, hauth, rfl⟩ :=
        streamDeserialize_shape bot ds e2 hres
      rcases hbad with h | h | h | h <;> simp_all
  · intro m aref hm hA
    constructor
    · intro hC
      cases hres : urlDeserialize bot d with
      | none => rfl
      | some e2 =>
        exfalso
        obtain ⟨url, title, dur, dl, expected, fn, m2, mt, hu, ht, hdur, hdl2, hex, hm2,
          hfn2, hauth, rfl⟩ := urlDeserialize_shape bot d e2 hres
        rw [hm] at hm2
        cases Option.some.inj hm2
        obtain ⟨cref, c, hC2, hB2⟩ := hauth aref hA
        rw [hC] at hC2
        cases hC2
    · intro cref hC hB
      cases hres : urlDeserialize bot d with
      | none => rfl
      | some e2 =>
        exfalso
        obtain ⟨url, title, dur, dl, expected, fn, m2, mt, hu, ht, hdur, hdl2, hex, hm2,
          hfn2, hauth, rfl⟩ := urlDeserialize_shape bot d e2 hres
        rw [hm] at hm2
        cases Option.some.inj hm2
        obtain ⟨cref2, c, hC2, hB2⟩ := hauth aref hA
        rw [hC] at hC2
        cases Option.some.inj hC2
        rw [hB] at hB2
        cases hB2
  · intro m aref hm hA
    constructor
    · intro hC
      cases hres : streamDeserialize bot ds with
      | none => rfl
      | some e2 =>
        exfalso
        obtain ⟨url, title, dir, m2, mt, hu, ht, hd, hm2, hauth, rfl⟩ :=
          streamDeserialize_shape bot ds e2 hres
        rw [hm] at hm2
        cases Option.some.inj hm2
        obtain ⟨cref, c, hC2, hB2⟩ := hauth aref hA
        rw [hC] at hC2
        cases hC2
    · intro cref hC hB
      cases hres : streamDeserialize bot ds with
      | none => rfl
      | some e2 =>
        exfalso
        obtain ⟨url, title, dir, m2, mt, hu, ht, hd, hm2, hauth, rfl⟩ :=
          streamDeserialize_shape bot ds e2 hres
        rw [hm] at hm2
        cases Option.some.inj hm2
        obtain ⟨cref2, c, hC2, hB2⟩ := hauth aref hA
        rw [hC] at hC2
        cases Option.some.inj hC2
        rw [hB] at hB2
        cases hB2
  · intro url title dur expected m hu ht hdur hdl hex hm hA
    rcases d with ⟨v, u0, t0, dur0, dl0, ex0, fn0, m0⟩
    simp only at hu ht hdur hdl hex hm
    subst hu; subst ht; subst hdur; subst hdl; subst hex; subst hm
    simp [urlDeserialize, hA]
  · intro url title dir m hu ht hdir hm hA
    rcases ds with ⟨v, u0, t0, dir0, m0⟩
    simp only at hu ht hdir hm
    subst hu; subst ht; subst hdir; subst hm
    simp [streamDeserialize, hA]

theorem C8_deserialize_failures_witness :
    urlDeserialize c8botNone c8recMissingUrl = none ∧
    urlDeserialize c8botNone c8recAuthorNoChannel = none ∧
    (urlDeserialize c8botNone c8recUnresolvable).isSome = true ∧
    (urlDeserializeAll c8botNone
      [c8recPlain, c8recMissingUrl, c8recUnresolvable]).length = 2 := by
  have h := C8_deserialize_failures_amended c8botNone c8recMissingUrl
    { url := none, title := none, direct := none, meta := none }
    [c8recPlain, c8recMissingUrl, c8recUnresolvable]
  have h2 := C8_deserialize_failures_amended c8botNone c8recAuthorNoChannel
    { url := none, title := none, direct := none, meta := none } []
  have h3 := C8_deserialize_failures_amended c8botNone c8recUnresolvable
    { url := none, title := none, direct := none, meta := none } []
  refine ⟨h.1 (Or.inl rfl), ?_, ?_, ?_⟩
  · exact (h2.2.2.1 { author := some { type := "Member", id := 7, name := "alice" } }
      { type := "Member", id := 7, name := "alice" } rfl rfl).1 rfl
  · exact h3.2.2.2.2.1 "https://y.example/watch?v=id1" "t" 180
      "audio_cache/youtube-id1-t.m4a"
      { channel := some { type := "Channel", id := 5, name := "general" } }
      rfl rfl rfl rfl rfl rfl rfl
  · rw [h.2.2.2.2.2.2]
    rfl

end MusicBot
